import Mathlib

/-!
Verification of the deterministic text-formatting engine of
`src/index.tsx` (KTP identity-card narrative formatter).

The formatting functions `numberToWords`, `dateToWords`, `toTitleCase`
and `formatParagraph` of the source are modelled as pure Lean functions
over `String`/`List Char`.  JavaScript runtime behaviour relevant to
these functions is modelled explicitly:

* JS numbers produced by `Number(component)` in `dateToWords` are either
  integers or `NaN`/`undefined`; they are modelled as `Option Int`, with
  `none` standing for `NaN` (and for `undefined`, which behaves the same
  in every operation this code performs: every comparison is false, and
  array indexing with it yields `undefined`).
* `Math.floor(a / b)` for positive `b` is floor division, `Int.fdiv`.
* `a % b` (JS remainder, truncating) is `Int.tmod`.
* Array indexing out of bounds yields `undefined`, which stringifies to
  `"undefined"` when interpolated into a template literal.
* String case mapping and `\w`/digit/whitespace character classes are
  modelled at ASCII level, which covers every string this engine
  produces or tests.
-/

/-- Characters `pat` occur at the start of `l` (used to model JS
`String.prototype.includes`). -/
def leadingMatch : List Char → List Char → Bool
  | [], _ => true
  | _ :: _, [] => false
  | a :: as, b :: bs => a = b && leadingMatch as bs

/-- Characters `pat` occur somewhere in `l` (at the start of some suffix). -/
def listContainsSub (pat : List Char) : List Char → Bool
  | [] => leadingMatch pat []
  | c :: cs => leadingMatch pat (c :: cs) || listContainsSub pat cs

/-- Models JS `s.includes(pat)` (substring containment). -/
def strIncludes (s pat : String) : Bool :=
  listContainsSub pat.data s.data

/-- Models JS `s.toLowerCase()` (ASCII). -/
def strLower (s : String) : String :=
  String.mk (s.data.map Char.toLower)

/-- Models JS `s.toUpperCase()` (ASCII). -/
def strUpper (s : String) : String :=
  String.mk (s.data.map Char.toUpper)

/-- Drops leading whitespace characters from a character list. -/
def dropLeadingWs : List Char → List Char
  | [] => []
  | c :: cs => if c.isWhitespace then dropLeadingWs cs else c :: cs

/-- Models JS `s.trim()`: strips whitespace from both ends. -/
def strTrim (s : String) : String :=
  String.mk (dropLeadingWs ((dropLeadingWs s.data.reverse).reverse))

/-- Models JS `s.padStart(3, "0")` as used for the RT/RW fields. -/
def padStart3 (s : String) : String :=
  if 3 ≤ s.data.length then s
  else String.mk (List.replicate (3 - s.data.length) '0' ++ s.data)

/-- The JS regexp word class `\w`, i.e. `[A-Za-z0-9_]`. -/
def isWordChar (c : Char) : Bool :=
  c.isAlphanum || c = '_'

/-- Scanner for `toTitleCase`: upper-cases every word character that is
not preceded by a word character (the `\b\w` positions of the regexp in
`toTitleCase`); the Boolean argument records whether the previous
character was a word character. -/
def titleCaseAux : Bool → List Char → List Char
  | _, [] => []
  | prevWord, c :: cs =>
    if isWordChar c then
      (if prevWord then c else c.toUpper) :: titleCaseAux true cs
    else
      c :: titleCaseAux false cs

/-- The `toTitleCase` function of `src/index.tsx` (lines 379-382):
lower-case the whole string, then upper-case the first letter of every
word (`str.toLowerCase().replace(/\b\w/g, char => char.toUpperCase())`);
the empty string (the only falsy string) is returned unchanged. -/
def toTitleCase (str : String) : String :=
  if str = "" then ""
  else String.mk (titleCaseAux false (strLower str).data)

/-- The `units` word table of `numberToWords`. -/
def units : List String :=
  ["", "satu", "dua", "tiga", "empat", "lima", "enam", "tujuh", "delapan", "sembilan"]

/-- The `teens` word table of `numberToWords`. -/
def teens : List String :=
  ["sepuluh", "sebelas", "dua belas", "tiga belas", "empat belas",
   "lima belas", "enam belas", "tujuh belas", "delapan belas", "sembilan belas"]

/-- The `tens` word table of `numberToWords`. -/
def tens : List String :=
  ["", "", "dua puluh", "tiga puluh", "empat puluh", "lima puluh",
   "enam puluh", "tujuh puluh", "delapan puluh", "sembilan puluh"]

/-- Body of `numberToWords` from `src/index.tsx` (lines 342-363), with a
`fuel` argument that bounds the recursion depth so that the definition
is structural (and hence evaluates by kernel reduction).  The JS
function recurses on `Math.floor(num / 1000)`, which only happens when
`num ≥ 2000`, so the recursion depth is bounded by `num`;
`numberToWords` below instantiates `fuel` with a sufficient bound, and
`numberToWords_rec` proves that the resulting function satisfies the
exact recurrence of the JS source (the fuel is never exhausted).
The mutation of the JS local `num` is modelled by `num1`/`num2`, and the
accumulating `words` variable by `words1`/`words2`/`words3`. -/
def numberToWordsF : Nat → Int → String
  | 0, _ => ""
  | fuel + 1, num =>
    if num = 0 then "nol"
    else
      let t := Int.fdiv num 1000
      let words1 :=
        if 0 < t then
          (if t = 1 then "seribu" else numberToWordsF fuel t ++ " ribu") ++ " "
        else ""
      let num1 := if 0 < t then Int.tmod num 1000 else num
      let h := Int.fdiv num1 100
      let words2 := words1 ++
        (if 0 < h then
          (if h = 1 then "seratus" else units.getD h.toNat "undefined" ++ " ratus") ++ " "
         else "")
      let num2 := if 0 < h then Int.tmod num1 100 else num1
      let words3 := words2 ++
        (if 0 < num2 then
          if num2 < 10 then units.getD num2.toNat "undefined"
          else if num2 < 20 then teens.getD (num2 - 10).toNat "undefined"
          else tens.getD (Int.fdiv num2 10).toNat "undefined" ++
            (if 0 < Int.tmod num2 10 then " " ++ units.getD (Int.tmod num2 10).toNat "undefined" else "")
         else "")
      strTrim words3

/-- The `numberToWords` function of `src/index.tsx` (lines 342-363),
on integer arguments (the only numbers the program feeds it are the
integers-or-NaN results of `Number(...)`; NaN is handled by
`numberToWordsJS` below).  `num.toNat + 1` units of fuel always suffice:
see `numberToWords_rec`. -/
def numberToWords (num : Int) : String :=
  numberToWordsF (num.toNat + 1) num

/-- The `months` table of `dateToWords` (index 1-12; index 0 is the
empty string). -/
def months : List String :=
  ["", "Januari", "Februari", "Maret", "April", "Mei", "Juni", "Juli",
   "Agustus", "September", "Oktober", "November", "Desember"]

/-- Splitter for `dateStr.split('-')` on a character list; `acc` holds
the (reversed) characters of the current segment. -/
def splitDashAux : List Char → List Char → List String
  | [], acc => [String.mk acc.reverse]
  | c :: cs, acc =>
    if c = '-' then String.mk acc.reverse :: splitDashAux cs []
    else splitDashAux cs (c :: acc)

/-- Models JS `dateStr.split('-')` (single-character separator). -/
def splitDash (s : String) : List String :=
  splitDashAux s.data []

/-- Decimal value of a list of ASCII digit characters. -/
def digitsVal (l : List Char) : Int :=
  l.foldl (fun n c => n * 10 + ((c.toNat : Int) - 48)) 0

/-- Models the JS `Number(s)` conversion on the component strings that
`dateToWords` produces: a string of ASCII digits converts to its decimal
value (the empty string to `0`, as in JS), and a string containing any
other character converts to NaN (`none`).  The other numeric syntaxes JS
would accept here (signs, fractions, surrounding whitespace, hex) do not
occur in the claims about `DD-MM-YYYY` strings and are not modelled. -/
def jsNumber (s : String) : Option Int :=
  if s.data.all Char.isDigit then some (digitsVal s.data) else none

/-- Models the JS array destructuring `const [day, month, year] = parts`:
the element at index `i`, or `undefined` (`none`) when the array is too
short. -/
def jsAt (l : List (Option Int)) (i : Nat) : Option Int :=
  (l.drop i).headD none

/-- Models the JS template interpolation of `arr[i]` for a string array:
a NaN/undefined or out-of-range index reads `undefined`, which the
template literal renders as `"undefined"`. -/
def jsArrayLookup (l : List String) : Option Int → String
  | none => "undefined"
  | some i => if i < 0 then "undefined" else (l.drop i.toNat).headD "undefined"

/-- Models the JS comparison `a >= b` where `a` may be NaN/undefined
(every comparison with NaN is false). -/
def jsGE : Option Int → Int → Bool
  | none, _ => false
  | some a, b => decide (b ≤ a)

/-- Models `numberToWords(x)` where `x` may be NaN/undefined: `NaN === 0`
is false and so is every band test `Math.floor(NaN / k) > 0` and
`NaN > 0`, so the JS function falls through every branch and returns the
trimmed empty accumulator `""`. -/
def numberToWordsJS : Option Int → String
  | none => ""
  | some n => numberToWords n

/-- The `dateToWords` function of `src/index.tsx` (lines 365-377).  Note
that the `try`/`catch` of the source is dead code: `split`, `map(Number)`
and array destructuring never throw in JS, so the `catch (e) { return
""; }` branch is unreachable and does not appear in the model — on a
malformed string the NaN components flow through the template literal
instead (see `C1_dateToWords_not_a_date`). -/
def dateToWords (dateStr : String) : String :=
  let parts := (splitDash dateStr).map jsNumber
  let day := jsAt parts 0
  let month := jsAt parts 1
  let year := jsAt parts 2
  let yearInWords0 := numberToWordsJS year
  let yearInWords := if jsGE year 2000 then "tahun " ++ yearInWords0 else yearInWords0
  numberToWordsJS day ++ " " ++ jsArrayLookup months month ++ " " ++ yearInWords

/-- The `KtpData` record of `src/index.tsx` (lines 36-53): the structured
fields of one extracted identity card.  The two honorific expansions are
optional in the TS interface and are modelled as `Option String`
(`none` for an absent field, behaving as the falsy `undefined`). -/
structure KtpData where
  nik : String
  nama : String
  tempatLahir : String
  tanggalLahir : String
  jenisKelamin : String
  alamat : String
  rt : String
  rw : String
  kelDesa : String
  kecamatan : String
  kota : String
  statusPerkawinan : String
  pekerjaan : String
  kewarganegaraan : String
  gelarDepanExpanded : Option String
  gelarBelakangExpanded : Option String

/-- Salutation selection of `formatParagraph` (lines 388-396):
`"Tuan"` when the upper-cased gender contains `"LAKI"`, otherwise
`"Nona"` when the upper-cased marital status equals `"BELUM KAWIN"`,
otherwise `"Nyonya"`. -/
def salutationOf (data : KtpData) : String :=
  if strIncludes (strUpper data.jenisKelamin) "LAKI" then "Tuan"
  else if strUpper data.statusPerkawinan = "BELUM KAWIN" then "Nona"
  else "Nyonya"

/-- Scanner for the global case-insensitive replacement
`gelarDepan.replace(/haji/ig, 'Hajjah')` (line 404): scan left to right;
where the next four characters case-insensitively spell `haji`, emit
`Hajjah` and continue after them, otherwise keep one character and
continue.  The `fuel` argument (consumed once per emitted chunk) makes
the recursion structural; `l.length` fuel always suffices since every
step consumes at least one character of `l`, and `replaceHaji_rec` below
proves the fuel-free recurrence. -/
def replaceHajiF : Nat → List Char → List Char
  | 0, l => l
  | fuel + 1, l =>
    match l with
    | c1 :: c2 :: c3 :: c4 :: cs =>
      if c1.toLower = 'h' ∧ c2.toLower = 'a' ∧ c3.toLower = 'j' ∧ c4.toLower = 'i' then
        'H' :: 'a' :: 'j' :: 'j' :: 'a' :: 'h' :: replaceHajiF fuel cs
      else c1 :: replaceHajiF fuel (c2 :: c3 :: c4 :: cs)
    | l' => l'

/-- Models `s.replace(/haji/ig, 'Hajjah')` on strings. -/
def replaceHajiGlobal (s : String) : String :=
  String.mk (replaceHajiF s.data.length s.data)

/-- The normalized front honorific of `formatParagraph` (lines 399-405):
`(data.gelarDepanExpanded || '').trim()`, with every case-insensitive
occurrence of `haji` replaced by `Hajjah` when the title contains `haji`
and the upper-cased gender contains `"PEREMPUAN"`. -/
def gelarDepanOf (data : KtpData) : String :=
  let gelarDepan := strTrim (data.gelarDepanExpanded.getD "")
  if strIncludes (strLower gelarDepan) "haji"
      && strIncludes (strUpper data.jenisKelamin) "PEREMPUAN" then
    replaceHajiGlobal gelarDepan
  else gelarDepan

/-- The front-honorific part of the name block (lines 407-410): the
title-cased front honorific followed by a space, or nothing when the
(trimmed) honorific is empty. -/
def frontTitleSegment (data : KtpData) : String :=
  if gelarDepanOf data ≠ "" then toTitleCase (gelarDepanOf data) ++ " " else ""

/-- The rear-honorific part of the name block (lines 414-416): a comma,
a space and the title-cased rear honorific, or nothing when the field is
absent or empty (falsy).  Note the field is not trimmed here. -/
def backTitleSegment (data : KtpData) : String :=
  let gb := data.gelarBelakangExpanded.getD ""
  if gb ≠ "" then ", " ++ toTitleCase gb else ""

/-- The `formattedName` block of `formatParagraph` (lines 398-416). -/
def formattedNameOf (data : KtpData) : String :=
  frontTitleSegment data ++ strUpper data.nama ++ backTitleSegment data

/-- The `formatParagraph` function of `src/index.tsx` (lines 385-436). -/
def formatParagraph (data : KtpData) : String :=
  if data.nik = "" then
    "Data tidak lengkap dari salah satu KTP. Pratinjau gambar mungkin tidak jelas."
  else
    let salutation := salutationOf data
    let formattedName := formattedNameOf data
    let dateInWords := dateToWords data.tanggalLahir
    let rt := padStart3 data.rt
    let rw := padStart3 data.rw
    let citizenship :=
      if strTrim (strUpper data.kewarganegaraan) = "WNI" then "Warga Negara Indonesia"
      else data.kewarganegaraan
    let tempatLahir := toTitleCase data.tempatLahir
    let pekerjaan := toTitleCase data.pekerjaan
    let kota := toTitleCase data.kota
    let alamat := data.alamat
    let kelDesa := toTitleCase data.kelDesa
    let kecamatan := toTitleCase data.kecamatan
    let fullAddress := "bertempat tinggal di " ++ kota ++ ", " ++ alamat ++
      ", Rukun Tetangga " ++ rt ++ ", Rukun Warga " ++ rw ++
      ", Kelurahan " ++ kelDesa ++ ", Kecamatan " ++ kecamatan
    "<strong>" ++ salutation ++ " " ++ formattedName ++ "</strong>, dilahirkan di " ++
      tempatLahir ++ ", tanggal " ++ data.tanggalLahir ++ " (" ++ dateInWords ++ "), " ++
      pekerjaan ++ ", " ++ fullAddress ++
      ", pemegang Kartu Tanda Penduduk dengan Nomor Induk Kependudukan " ++
      data.nik ++ ", " ++ citizenship ++ "."

/-- A concrete well-formed record used by several evaluations. -/
def sampleData : KtpData :=
  { nik := "3204011708450001"
    nama := "Budi Santoso"
    tempatLahir := "BANDUNG"
    tanggalLahir := "17-08-1945"
    jenisKelamin := "LAKI-LAKI"
    alamat := "Jalan Merdeka Nomor 1"
    rt := "5"
    rw := "12"
    kelDesa := "Citarum"
    kecamatan := "Bandung Wetan"
    kota := "Bandung"
    statusPerkawinan := "KAWIN"
    pekerjaan := "PEGAWAI SWASTA"
    kewarganegaraan := "WNI"
    gelarDepanExpanded := some ""
    gelarBelakangExpanded := some "" }


/-- Record with a whitespace-only rear honorific (counterexample data for
the rear-honorific part of the name block). -/
def dataC2 : KtpData :=
  { sampleData with
    nama := "Budi"
    gelarDepanExpanded := some ""
    gelarBelakangExpanded := some " " }

/-- Record with a whitespace-only front honorific and an absent rear
honorific. -/
def dataC2w : KtpData :=
  { sampleData with
    gelarDepanExpanded := some "   "
    gelarBelakangExpanded := none }

/-- Record with lower-cased male gender and unmarried status. -/
def dataC4a : KtpData :=
  { sampleData with
    jenisKelamin := "laki-laki"
    statusPerkawinan := "BELUM KAWIN" }

/-- Record with female gender and lower-cased unmarried status. -/
def dataC4b : KtpData :=
  { sampleData with
    jenisKelamin := "PEREMPUAN"
    statusPerkawinan := "belum kawin" }

/-- Record with female gender and a divorced marital status. -/
def dataC4c : KtpData :=
  { sampleData with
    jenisKelamin := "PEREMPUAN"
    statusPerkawinan := "CERAI HIDUP" }

/-- Record with female gender and a front honorific containing `Haji`. -/
def dataC5 : KtpData :=
  { sampleData with
    jenisKelamin := "PEREMPUAN"
    gelarDepanExpanded := some " Haji Doktor " }

/-- Record with male gender and a front honorific containing `Haji`. -/
def dataC5b : KtpData :=
  { sampleData with gelarDepanExpanded := some "Haji" }

/-- Record with an empty national-id field and otherwise populated
fields. -/
def dataC6 : KtpData :=
  { sampleData with nik := "" }

/-- Fuel does not matter for `numberToWordsF` once it exceeds the input:
the recursion of the JS source always terminates before the bound is
reached. -/
theorem numberToWordsF_fuel : ∀ f : Nat, ∀ g : Nat, ∀ n : Int,
    n.toNat < f → n.toNat < g → numberToWordsF f n = numberToWordsF g n := by
  intro f
  induction f with
  | zero => intro g n hf hg; omega
  | succ f ih =>
    intro g n hf hg
    cases g with
    | zero => omega
    | succ g =>
      simp only [numberToWordsF]
      by_cases h0 : n = 0
      · simp [h0]
      · simp only [if_neg h0]
        by_cases ht : 0 < Int.fdiv n 1000
        · by_cases h1 : Int.fdiv n 1000 = 1
          · simp only [if_pos ht, if_pos h1]
          · have hfe : Int.fdiv n 1000 = n / 1000 := Int.fdiv_eq_ediv n (by norm_num)
            have ht' : 0 < n / 1000 := hfe ▸ ht
            have hb : (Int.fdiv n 1000).toNat < f := by rw [hfe]; omega
            have hb' : (Int.fdiv n 1000).toNat < g := by rw [hfe]; omega
            simp only [if_pos ht, if_neg h1, ih g _ hb hb']
        · simp only [if_neg ht]

/-- Faithfulness certificate for the fuelled definition: `numberToWords`
satisfies the exact recurrence of the JS source (lines 342-363), with
the recursive call on `Math.floor(num / 1000)` appearing as
`numberToWords t`.  Hence the fuel in `numberToWordsF` is an encoding
artifact only. -/
theorem numberToWords_rec (num : Int) :
    numberToWords num =
      (if num = 0 then "nol"
      else
        let t := Int.fdiv num 1000
        let words1 :=
          if 0 < t then
            (if t = 1 then "seribu" else numberToWords t ++ " ribu") ++ " "
          else ""
        let num1 := if 0 < t then Int.tmod num 1000 else num
        let h := Int.fdiv num1 100
        let words2 := words1 ++
          (if 0 < h then
            (if h = 1 then "seratus" else units.getD h.toNat "undefined" ++ " ratus") ++ " "
           else "")
        let num2 := if 0 < h then Int.tmod num1 100 else num1
        let words3 := words2 ++
          (if 0 < num2 then
            if num2 < 10 then units.getD num2.toNat "undefined"
            else if num2 < 20 then teens.getD (num2 - 10).toNat "undefined"
            else tens.getD (Int.fdiv num2 10).toNat "undefined" ++
              (if 0 < Int.tmod num2 10 then " " ++ units.getD (Int.tmod num2 10).toNat "undefined" else "")
           else "")
        strTrim words3) := by
  conv_lhs => rw [numberToWords]
  simp only [numberToWordsF]
  by_cases h0 : num = 0
  · simp [h0]
  · simp only [if_neg h0]
    by_cases ht : 0 < Int.fdiv num 1000
    · by_cases h1 : Int.fdiv num 1000 = 1
      · simp only [if_pos ht, if_pos h1]
      · have hfe : Int.fdiv num 1000 = num / 1000 := Int.fdiv_eq_ediv num (by norm_num)
        have ht' : 0 < num / 1000 := hfe ▸ ht
        have hrw : numberToWordsF num.toNat (Int.fdiv num 1000)
            = numberToWords (Int.fdiv num 1000) := by
          rw [numberToWords]
          exact numberToWordsF_fuel _ _ _ (by rw [hfe]; omega) (by rw [hfe]; omega)
        simp only [if_pos ht, if_neg h1, hrw]
    · simp only [if_neg ht]

/-- Fuel does not matter for `replaceHajiF` once it reaches the length
of the scanned list: every scanning step consumes at least one
character. -/
theorem replaceHajiF_fuel : ∀ f : Nat, ∀ g : Nat, ∀ l : List Char,
    l.length ≤ f → l.length ≤ g → replaceHajiF f l = replaceHajiF g l := by
  intro f
  induction f with
  | zero =>
    intro g l hf hg
    have hnil : l = [] := by
      cases l with
      | nil => rfl
      | cons c cs => simp at hf
    subst hnil
    cases g <;> simp [replaceHajiF]
  | succ f ih =>
    intro g l hf hg
    cases g with
    | zero =>
      have hnil : l = [] := by
        cases l with
        | nil => rfl
        | cons c cs => simp at hg
      subst hnil
      simp [replaceHajiF]
    | succ g =>
      rcases l with _ | ⟨c1, _ | ⟨c2, _ | ⟨c3, _ | ⟨c4, cs⟩⟩⟩⟩
      · simp [replaceHajiF]
      · simp [replaceHajiF]
      · simp [replaceHajiF]
      · simp [replaceHajiF]
      · simp only [replaceHajiF]
        simp only [List.length_cons] at hf hg
        by_cases hm : c1.toLower = 'h' ∧ c2.toLower = 'a' ∧ c3.toLower = 'j' ∧ c4.toLower = 'i'
        · simp only [if_pos hm, ih g cs (by omega) (by omega)]
        · simp only [if_neg hm, ih g (c2 :: c3 :: c4 :: cs) (by simp; omega) (by simp; omega)]

/-- One unfolding step of the replacement scanner, with explicit fuel. -/
theorem replaceHajiF_cons (fuel : Nat) (c1 c2 c3 c4 : Char) (cs : List Char) :
    replaceHajiF (fuel + 1) (c1 :: c2 :: c3 :: c4 :: cs) =
      if c1.toLower = 'h' ∧ c2.toLower = 'a' ∧ c3.toLower = 'j' ∧ c4.toLower = 'i' then
        'H' :: 'a' :: 'j' :: 'j' :: 'a' :: 'h' :: replaceHajiF fuel cs
      else c1 :: replaceHajiF fuel (c2 :: c3 :: c4 :: cs) := rfl

/-- Faithfulness certificate for the fuelled replacement scanner: on a
list of at least four characters, the scanner with its canonical fuel
(`length`) satisfies the intended left-to-right recurrence, so the fuel
is an encoding artifact only. -/
theorem replaceHaji_rec (c1 c2 c3 c4 : Char) (cs : List Char) :
    replaceHajiF (c1 :: c2 :: c3 :: c4 :: cs).length (c1 :: c2 :: c3 :: c4 :: cs) =
      if c1.toLower = 'h' ∧ c2.toLower = 'a' ∧ c3.toLower = 'j' ∧ c4.toLower = 'i' then
        'H' :: 'a' :: 'j' :: 'j' :: 'a' :: 'h' :: replaceHajiF cs.length cs
      else c1 :: replaceHajiF (c2 :: c3 :: c4 :: cs).length (c2 :: c3 :: c4 :: cs) := by
  have e : (c1 :: c2 :: c3 :: c4 :: cs).length = (cs.length + 1 + 1 + 1) + 1 := by simp
  rw [e, replaceHajiF_cons]
  by_cases hm : c1.toLower = 'h' ∧ c2.toLower = 'a' ∧ c3.toLower = 'j' ∧ c4.toLower = 'i'
  · rw [if_pos hm, if_pos hm,
      replaceHajiF_fuel (cs.length + 1 + 1 + 1) cs.length cs (by omega) (by omega)]
  · rw [if_neg hm, if_neg hm,
      replaceHajiF_fuel (cs.length + 1 + 1 + 1) (c2 :: c3 :: c4 :: cs).length (c2 :: c3 :: c4 :: cs)
        (by simp) (by simp)]

/-- A list shorter than the pattern `haji` is returned unchanged by the
replacement scanner. -/
theorem replaceHaji_short (l : List Char) (h : l.length < 4) :
    replaceHajiF l.length l = l := by
  rcases l with _ | ⟨c1, _ | ⟨c2, _ | ⟨c3, _ | ⟨c4, cs⟩⟩⟩⟩
  · simp [replaceHajiF]
  · simp [replaceHajiF]
  · simp [replaceHajiF]
  · simp [replaceHajiF]
  · simp at h; omega

/-- Destructuring position 0 of a three-element array. -/
theorem jsAt_zero (a b c : Option Int) : jsAt [a, b, c] 0 = a := rfl

/-- Destructuring position 1 of a three-element array. -/
theorem jsAt_one (a b c : Option Int) : jsAt [a, b, c] 1 = b := rfl

/-- Destructuring position 2 of a three-element array. -/
theorem jsAt_two (a b c : Option Int) : jsAt [a, b, c] 2 = c := rfl

/-- Claim C1 (code bug evaluation).  The claim — and the `try`/`catch`
of the source itself — says `dateToWords` returns the empty string when
the input is not a well-formed `DD-MM-YYYY` date.  The code actually
returns `" undefined "` on `"not-a-date"`: none of `split`,
`map(Number)` or destructuring throws, so the `catch` branch returning
`""` is unreachable; the NaN components make `numberToWords` yield `""`
and `months[NaN]` renders as `"undefined"` inside the template
literal. -/
theorem C1_dateToWords_not_a_date :
    dateToWords "not-a-date" = " undefined " ∧ dateToWords "not-a-date" ≠ "" := by
  decide

/-- Claim C3: concrete values of the number speller, covering the zero
word, a teen word, the irregular short forms for one hundred and one
thousand, the thousands decomposition, an exact multiple of ten with the
unit word omitted, and a hundreds/teen combination. -/
theorem C3_numberToWords_values :
    numberToWords 0 = "nol" ∧
    numberToWords 15 = "lima belas" ∧
    numberToWords 100 = "seratus" ∧
    numberToWords 1000 = "seribu" ∧
    numberToWords 2024 = "dua ribu dua puluh empat" ∧
    numberToWords 10 = "sepuluh" ∧
    numberToWords 30 = "tiga puluh" ∧
    numberToWords 215 = "dua ratus lima belas" ∧
    numberToWords 1945 = "seribu sembilan ratus empat puluh lima" := by
  decide

/-- Claim C9: for every strictly negative integer, every band test of
`numberToWords` fails (`Math.floor(n / 1000) > 0`, `Math.floor(n / 100)
> 0` and `n > 0` are all false for `n < 0`), so the function falls
through all branches and returns the empty string. -/
theorem C9_numberToWords_negative (n : Int) (h : n < 0) : numberToWords n = "" := by
  have h0 : ¬(n = 0) := by omega
  have hfe : Int.fdiv n 1000 = n / 1000 := Int.fdiv_eq_ediv n (by norm_num)
  have hfe2 : Int.fdiv n 100 = n / 100 := Int.fdiv_eq_ediv n (by norm_num)
  have ht : ¬(0 < Int.fdiv n 1000) := by rw [hfe]; omega
  have hh : ¬(0 < Int.fdiv n 100) := by rw [hfe2]; omega
  have hn : ¬(0 < n) := by omega
  simp only [numberToWords, numberToWordsF, if_neg h0, if_neg ht, if_neg hh, if_neg hn]
  decide

/-- Witness for C9 at the concrete input `-7`. -/
theorem C9_numberToWords_negative_witness : numberToWords (-7) = "" :=
  C9_numberToWords_negative (-7) (by norm_num)

/-- Claim C10: `dateToWords` performs no range validation — on
`"01-13-1999"` the month lookup `months[13]` is out of bounds, renders
as `"undefined"`, and the function returns a non-empty string embedding
it. -/
theorem C10_dateToWords_month13 :
    dateToWords "01-13-1999" = "satu undefined seribu sembilan ratus sembilan puluh sembilan" ∧
    dateToWords "01-13-1999" ≠ "" := by
  decide

/-- Claim C8: `formatParagraph` is a pure function of the record — two
invocations on equal records give byte-identical results.  The shallow
embedding is deterministic by construction, which is faithful because
the source of `formatParagraph` (lines 385-436) reads nothing but its
argument and pure helpers: no clock, no module-level mutable state. -/
theorem C8_formatParagraph_deterministic (d1 d2 : KtpData) (h : d1 = d2) :
    formatParagraph d1 = formatParagraph d2 := by
  rw [h]

/-- Witness for C8 at a concrete record. -/
theorem C8_formatParagraph_deterministic_witness :
    formatParagraph sampleData = formatParagraph sampleData :=
  C8_formatParagraph_deterministic sampleData sampleData rfl

/-- Claim C6: an empty `nik` makes `formatParagraph` return exactly the
fixed incomplete-data sentinel, whatever the other fields hold. -/
theorem C6_emptyNik (data : KtpData) (h : data.nik = "") :
    formatParagraph data =
      "Data tidak lengkap dari salah satu KTP. Pratinjau gambar mungkin tidak jelas." := by
  simp [formatParagraph, h]

/-- Witness for C6: a concrete record with an empty `nik` and populated
(junk) other fields produces the sentinel and nothing else. -/
theorem C6_emptyNik_witness :
    formatParagraph dataC6 =
      "Data tidak lengkap dari salah satu KTP. Pratinjau gambar mungkin tidak jelas." :=
  C6_emptyNik dataC6 rfl

/-- Counterexample to claim C2 as stated: for the record `dataC2`, whose
rear honorific field is the whitespace-only string `" "` (so its trimmed
value is empty), the rear-honorific segment of the name block is NOT
omitted — the name block renders the blank phrase `",  "` after the
uppercased name, contradicting "for every input, including
whitespace-only honorific fields, no blank honorific phrase is
rendered". -/
theorem C2_counterexample :
    strTrim (dataC2.gelarBelakangExpanded.getD "") = "" ∧
    backTitleSegment dataC2 = ",  " ∧
    formattedNameOf dataC2 = "BUDI,  " ∧
    formattedNameOf dataC2 ≠ "BUDI" := by
  decide

/-- Claim C2 as amended: the front honorific is trimmed before the
emptiness test, so a front honorific that is empty after trimming
(including whitespace-only ones) is omitted entirely; the rear honorific
segment is omitted exactly when the field is absent or the empty string,
while any other value `g` — including whitespace-only ones — is rendered
as `", " ++ toTitleCase g`; and the name block is the front segment,
then the uppercased name, then the rear segment. -/
theorem C2_honorificSegments (data : KtpData) :
    (strTrim (data.gelarDepanExpanded.getD "") = "" → frontTitleSegment data = "") ∧
    (data.gelarBelakangExpanded.getD "" = "" → backTitleSegment data = "") ∧
    (∀ g : String, data.gelarBelakangExpanded = some g → g ≠ "" →
      backTitleSegment data = ", " ++ toTitleCase g) ∧
    formattedNameOf data = frontTitleSegment data ++ strUpper data.nama ++ backTitleSegment data := by
  refine ⟨?_, ?_, ?_, rfl⟩
  · intro hp
    have hinc : strIncludes (strLower "") "haji" = false := by decide
    simp [frontTitleSegment, gelarDepanOf, hp, hinc]
  · intro hs
    simp [backTitleSegment, hs]
  · intro g hg hne
    simp [backTitleSegment, hg, hne]

/-- Witness for the amended C2: a whitespace-only front honorific is
omitted, an absent rear honorific is omitted, and the whitespace-only
rear honorific of `dataC2` is rendered as a blank `", "` phrase. -/
theorem C2_honorificSegments_witness :
    frontTitleSegment dataC2w = "" ∧
    backTitleSegment dataC2w = "" ∧
    backTitleSegment dataC2 = ", " ++ toTitleCase " " :=
  ⟨(C2_honorificSegments dataC2w).1 (by decide),
   (C2_honorificSegments dataC2w).2.1 (by decide),
   (C2_honorificSegments dataC2).2.2.1 " " rfl (by decide)⟩

/-- Claim C4: the salutation is `"Tuan"` whenever the upper-cased gender
contains `"LAKI"` (case-insensitive substring match), regardless of
marital status; otherwise it is `"Nona"` exactly when the upper-cased
marital status equals `"BELUM KAWIN"`, and `"Nyonya"` for every other
marital-status value. -/
theorem C4_salutation (data : KtpData) :
    (strIncludes (strUpper data.jenisKelamin) "LAKI" = true →
      salutationOf data = "Tuan") ∧
    (strIncludes (strUpper data.jenisKelamin) "LAKI" = false →
      (strUpper data.statusPerkawinan = "BELUM KAWIN" → salutationOf data = "Nona") ∧
      (strUpper data.statusPerkawinan ≠ "BELUM KAWIN" → salutationOf data = "Nyonya")) := by
  refine ⟨fun h => ?_, fun h => ⟨fun hm => ?_, fun hm => ?_⟩⟩
  · simp [salutationOf, h]
  · simp [salutationOf, h, hm]
  · simp [salutationOf, h, hm]

/-- Witness for C4: lower-cased male gender (even when unmarried) gives
`"Tuan"`, female with a case-variant `"belum kawin"` gives `"Nona"`, and
female with a divorced status gives `"Nyonya"`. -/
theorem C4_salutation_witness :
    salutationOf dataC4a = "Tuan" ∧
    salutationOf dataC4b = "Nona" ∧
    salutationOf dataC4c = "Nyonya" :=
  ⟨(C4_salutation dataC4a).1 (by decide),
   ((C4_salutation dataC4b).2 (by decide)).1 (by decide),
   ((C4_salutation dataC4c).2 (by decide)).2 (by decide)⟩

/-- Claim C5: when the trimmed front honorific case-insensitively
contains `"haji"` and the upper-cased gender contains `"PEREMPUAN"`,
the normalized front honorific is the global case-insensitive
replacement of `"haji"` by `"Hajjah"` applied to the trimmed field; when
the gender does not contain `"PEREMPUAN"` no replacement occurs; the
replacement is global (all three occurrences in `"haji HAJI haJi"` are
replaced); and the replacement happens before title-casing, the
(nonempty) normalized honorific being title-cased in the name block. -/
theorem C5_hajiReplacement (data : KtpData) :
    (strIncludes (strLower (strTrim (data.gelarDepanExpanded.getD ""))) "haji" = true →
      strIncludes (strUpper data.jenisKelamin) "PEREMPUAN" = true →
      gelarDepanOf data = replaceHajiGlobal (strTrim (data.gelarDepanExpanded.getD ""))) ∧
    (strIncludes (strUpper data.jenisKelamin) "PEREMPUAN" = false →
      gelarDepanOf data = strTrim (data.gelarDepanExpanded.getD "")) ∧
    replaceHajiGlobal "haji HAJI haJi" = "Hajjah Hajjah Hajjah" ∧
    (gelarDepanOf data ≠ "" →
      frontTitleSegment data = toTitleCase (gelarDepanOf data) ++ " ") := by
  refine ⟨fun h1 h2 => ?_, fun h2 => ?_, by decide, fun h => ?_⟩
  · simp [gelarDepanOf, h1, h2]
  · simp [gelarDepanOf, h2]
  · simp [frontTitleSegment, h]

/-- Witness for C5: a female record with front honorific
`" Haji Doktor "` gets the replacement (the trimmed title becomes
`"Hajjah Doktor"`), and a male record with front honorific `"Haji"`
keeps it unreplaced. -/
theorem C5_hajiReplacement_witness :
    gelarDepanOf dataC5 = replaceHajiGlobal (strTrim (dataC5.gelarDepanExpanded.getD "")) ∧
    gelarDepanOf dataC5b = strTrim (dataC5b.gelarDepanExpanded.getD "") :=
  ⟨(C5_hajiReplacement dataC5).1 (by decide) (by decide),
   (C5_hajiReplacement dataC5b).2.1 (by decide)⟩

/-- Claim C7: for every input that splits on `-` into three components
that parse as numbers, with month between 1 and 12, `dateToWords`
renders the day in words, the month name from the fixed table, and the
year in words with the literal prefix `"tahun "` exactly when the year
is at least 2000; and the two concrete examples from the specification
hold. -/
theorem C7_dateToWords_wellFormed :
    (∀ (s ds ms ys : String) (d m y : Int),
      splitDash s = [ds, ms, ys] →
      jsNumber ds = some d → jsNumber ms = some m → jsNumber ys = some y →
      1 ≤ m → m ≤ 12 →
      dateToWords s =
        numberToWords d ++ " " ++ months.getD m.toNat "" ++ " " ++
          (if 2000 ≤ y then "tahun " ++ numberToWords y else numberToWords y)) ∧
    dateToWords "17-08-1945" = "tujuh belas Agustus seribu sembilan ratus empat puluh lima" ∧
    dateToWords "01-01-2000" = "satu Januari tahun dua ribu" := by
  refine ⟨?_, by decide, by decide⟩
  intro s ds ms ys d m y hsplit hd hm hy hm1 hm2
  have hmonth : jsArrayLookup months (some m) = months.getD m.toNat "" := by
    interval_cases m <;> rfl
  simp only [dateToWords, hsplit, List.map_cons, List.map_nil, hd, hm, hy,
    jsAt_zero, jsAt_one, jsAt_two, numberToWordsJS, jsGE, hmonth,
    decide_eq_true_eq]

/-- Witness for C7 applying the general statement to the concrete
well-formed date `"21-04-1879"`. -/
theorem C7_dateToWords_wellFormed_witness :
    dateToWords "21-04-1879" =
      numberToWords 21 ++ " " ++ months.getD (4 : Int).toNat "" ++ " " ++
        (if (2000 : Int) ≤ 1879 then "tahun " ++ numberToWords 1879 else numberToWords 1879) :=
  C7_dateToWords_wellFormed.1 "21-04-1879" "21" "04" "1879" 21 4 1879
    (by decide) (by decide) (by decide) (by decide) (by decide) (by decide)
